import Mathlib

/-!
# Verification of the e-commerce return-risk predictor (`src/app.py`)

A shallow embedding of the behavioural core of `app.py`:

* the decision threshold applied to the classifier's return probability
  (`prediction`, app.py line 161);
* the feature assembler building the model input row (`input_data`,
  app.py lines 148–158);
* the feedback persistence flow: name validation, fetch/parse of the
  existing remote CSV, append, and write-back (`feedback_form`,
  app.py lines 239–290);
* the CSV serialisation / parsing round trip (`to_csv` / `read_csv`,
  app.py lines 264 and 309–312).

Machine reals are modelled by `ℚ` (the Python computations involved are
exact decimal arithmetic at the granularity the properties mention), and
the external GitHub contents API is modelled from the specification's
description of the feedback resource (a versioned store whose write
takes a conflict token from the most recent read).
-/

namespace ReturnPredictor

/-! ## Decision threshold (app.py line 161) -/

/-- The decision rule on the classifier's return probability,
`prediction = "Return Likely" if return_probability > 0.05 else "Return Unlikely"`
(app.py line 161). -/
def prediction (return_probability : ℚ) : String :=
  if return_probability > 0.05 then "Return Likely" else "Return Unlikely"

/-! ## Feature assembler (app.py lines 148–158) -/

/-- The order attributes collected by the form (app.py lines 131–143). -/
structure OrderInput where
  category : String
  country : String
  unit_price : ℚ
  total_price : ℚ
  customer_return_rate : ℚ
  month : ℕ
  is_holiday : Bool
  is_weekend : Bool
deriving Repr, DecidableEq

/-- The single feature row assembled from the form inputs
(app.py lines 148–158).  The label-encoder artifacts `le_category` /
`le_country` are external pickled objects; they are passed in as the
encoding functions `encodeCategory` / `encodeCountry` (spec §6:
`encode(label) → integer`).  Column order is the dict order of
`input_data`: UnitPrice, TotalPrice, Month, Hour, IsWeekend,
IsHolidaySeason, CustomerReturnRate, Category, Country. -/
def input_data (encodeCategory encodeCountry : String → ℕ)
    (o : OrderInput) : List ℚ :=
  [ o.unit_price,
    o.total_price,
    (o.month : ℚ),
    12,
    (if o.is_weekend then 1 else 0),
    (if o.is_holiday then 1 else 0),
    o.customer_return_rate / 100,
    (encodeCategory o.category : ℚ),
    (encodeCountry o.country : ℚ) ]

/-! ## Feedback data model (app.py lines 243–249) -/

/-- Python's `str.strip()` as used in the guard
`if not name.strip():` (app.py line 240): remove leading and trailing
whitespace. -/
def strip (s : String) : String :=
  String.mk (((s.data.dropWhile Char.isWhitespace).reverse.dropWhile
    Char.isWhitespace).reverse)

/-- One feedback record, the dict `feedback_entry` built at
app.py lines 243–249: Name, Usability_Rating, Accuracy_Relevance_Rating,
Suggestions, Timestamp. -/
structure FeedbackEntry where
  name : String
  usabilityRating : ℕ
  accuracyRelevanceRating : ℕ
  suggestions : String
  timestamp : String
deriving Repr, DecidableEq

/-- `df_updated = pd.concat([df_existing, pd.DataFrame([feedback_entry])],
ignore_index=True)` (app.py line 260): the rows of the existing table
followed by the new record as the last row. -/
def df_updated (df_existing : List FeedbackEntry) (entry : FeedbackEntry) :
    List FeedbackEntry :=
  df_existing ++ [entry]

/-! ## Remote feedback store

The store itself (the GitHub contents API) is external to the repository.
`none` models an absent `feedback.csv`; `some (rows, sha)` models the
resource holding `rows` under version token `sha`. -/

/-- Modelled from the spec: the feedback resource's write operation
(spec §6) — `repo.update_file(..., sha=contents.sha, ...)` at
app.py lines 267–273.  The write "requires a conflict token (e.g., a
content version) obtained from the most recent read, rejecting the write
if the resource has changed since"; a successful write replaces the full
content and advances the version. -/
def update_file (st : Option (List FeedbackEntry × ℕ))
    (content : List FeedbackEntry) (sha : ℕ) :
    Except String (Option (List FeedbackEntry × ℕ)) :=
  match st with
  | none => .error "file not found"
  | some (_, cur) =>
      if sha = cur then .ok (some (content, cur + 1)) else .error "sha conflict"

/-- Modelled from the spec: creating the feedback resource
(`repo.create_file`, app.py lines 275–280).  Creation succeeds only when
the resource is absent; creating over an existing resource is rejected
(no conflict token was supplied). -/
def create_file (st : Option (List FeedbackEntry × ℕ))
    (content : List FeedbackEntry) :
    Except String (Option (List FeedbackEntry × ℕ)) :=
  match st with
  | none => .ok (some (content, 0))
  | some _ => .error "file already exists"

/-- Outcome of the inner `try` at app.py lines 256–262: either
`contents` and `df_existing` were both obtained, or `get_contents`
succeeded but `pd.read_csv` raised (so `contents` is in `locals()` but
the rows are unknown), or `get_contents` itself raised. -/
inductive FetchResult where
  | ok (rows : List FeedbackEntry) (sha : ℕ)
  | parseFailed (sha : ℕ)
  | fetchFailed
deriving Repr, DecidableEq

/-- A write request issued to the store: `update_file` carries the
conflict token taken from the read, `create_file` carries none. -/
inductive WriteCall where
  | update (content : List FeedbackEntry) (sha : ℕ)
  | create (content : List FeedbackEntry)
deriving Repr, DecidableEq

/-- The table content a write request would store. -/
def WriteCall.content : WriteCall → List FeedbackEntry
  | .update c _ => c
  | .create c => c

/-- Observable outcome of one submission of the feedback form. -/
structure FormResult where
  errorMsg : Option String
  success : Bool
  fetchCalls : ℕ
  writeCalls : List WriteCall
  finalStore : Option (List FeedbackEntry × ℕ)
deriving Repr, DecidableEq

/-- The feedback submission handler (app.py lines 239–290).

* empty/whitespace-only name: `st.error` and stop, before any store
  interaction (lines 240–241);
* otherwise fetch the current store contents; the inner bare `except`
  (line 261) turns `get_contents`/`read_csv` failures into
  `df_updated = [entry]`;
* write back the merged table: `update_file` with the fetched `sha` when
  `contents` is in `locals()`, else `create_file` (lines 266–280);
* the outer `except Exception` (lines 288–290) surfaces any error from
  the store interaction as `st.error`; nothing is retried or queued.

`fetchError` injects a transient `get_contents` failure and `parseError`
a `pd.read_csv` failure on an existing resource; `writeError` injects a
transport failure of the write call itself. -/
def feedback_form (name : String) (entry : FeedbackEntry)
    (st : Option (List FeedbackEntry × ℕ))
    (fetchError parseError writeError : Bool) : FormResult :=
  if strip name = "" then
    { errorMsg := some "Please enter your name.", success := false,
      fetchCalls := 0, writeCalls := [], finalStore := st }
  else
    let fetched : FetchResult :=
      match st with
      | none => .fetchFailed
      | some (rows, sha) =>
          if fetchError then .fetchFailed
          else if parseError then .parseFailed sha
          else .ok rows sha
    let call : WriteCall :=
      match fetched with
      | .ok rows sha => .update (df_updated rows entry) sha
      | .parseFailed sha => .update (df_updated [] entry) sha
      | .fetchFailed => .create (df_updated [] entry)
    let writeRes : Except String (Option (List FeedbackEntry × ℕ)) :=
      if writeError then .error "network failure"
      else
        match call with
        | .update content sha => update_file st content sha
        | .create content => create_file st content
    match writeRes with
    | .ok st2 =>
        { errorMsg := none, success := true, fetchCalls := 1,
          writeCalls := [call], finalStore := st2 }
    | .error e =>
        { errorMsg := some ("Error saving feedback to GitHub: " ++ e),
          success := false, fetchCalls := 1, writeCalls := [call],
          finalStore := st }

/-- The interleaving of two submissions in which both read the same
prior store state `(rows, sha)` before either writes: writer 1 issues
its `update_file` first, then writer 2 issues its `update_file`, both
carrying the conflict token `sha` from that shared read.  Returns the
final store state and each writer's write success. -/
def concurrentAppend (rows : List FeedbackEntry) (sha : ℕ)
    (r1 r2 : FeedbackEntry) :
    Option (List FeedbackEntry × ℕ) × Bool × Bool :=
  match update_file (some (rows, sha)) (df_updated rows r1) sha with
  | .ok st1 =>
      match update_file st1 (df_updated rows r2) sha with
      | .ok st2 => (st2, true, true)
      | .error _ => (st1, true, false)
  | .error _ =>
      match update_file (some (rows, sha)) (df_updated rows r2) sha with
      | .ok st2 => (st2, false, true)
      | .error _ => (some (rows, sha), false, false)

/-- The rows held by a store state (empty when the resource is absent). -/
def storeRows (st : Option (List FeedbackEntry × ℕ)) : List FeedbackEntry :=
  match st with
  | none => []
  | some (rows, _) => rows

/-! ## The delimited-text codec

`df_updated.to_csv(index=False)` (app.py line 264) serialises the table
with the csv module's QUOTE_MINIMAL convention: a cell is quoted exactly
when it contains the delimiter, the quote character, or a line break,
and quote characters inside a quoted cell are doubled; rows are joined
by `'\n'`.  `pd.read_csv` (app.py line 312) parses that format back.
Cells are modelled as character lists. -/

/-- A concrete feedback record, used to instantiate theorems. -/
def entryA : FeedbackEntry :=
  { name := "Umar Farooq", usabilityRating := 4, accuracyRelevanceRating := 4,
    suggestions := "Add product images", timestamp := "2025-12-01 10:00:00" }

/-- A second concrete feedback record, distinct from `entryA`. -/
def entryB : FeedbackEntry :=
  { name := "Ayesha", usabilityRating := 5, accuracyRelevanceRating := 3,
    suggestions := "", timestamp := "2025-12-01 10:00:05" }


end ReturnPredictor

namespace ReturnPredictor

/-! ## Theorems about the decision threshold -/

/-- C1 counterexample: at a probability exactly equal to the threshold
0.05, the code (strict `>` at app.py line 161) outputs "Return Unlikely",
so the claim "for p exactly equal to 0.05 the result is likely" is false. -/
theorem c1_threshold_counterexample :
    prediction 0.05 = "Return Unlikely" ∧ prediction 0.05 ≠ "Return Likely" := by
  constructor
  · simp [prediction]
  · simp [prediction]

/-- C1 (amended): the decision rule maps a probability `p` to
"Return Likely" if and only if `p` is strictly above the threshold 0.05;
at exactly 0.05 it yields "Return Unlikely". -/
theorem c1_threshold_strict (p : ℚ) :
    (prediction p = "Return Likely" ↔ p > 0.05) ∧ prediction 0.05 = "Return Unlikely" := by
  constructor
  · unfold prediction
    split
    · simp_all
    · simp_all
  · simp [prediction]

/-! ## Theorems about the feature assembler -/

/-- C6: for every valid order input (and any category/country code
tables), the assembled feature row has fixed length nine, with the
documented fields at their fixed positions: the constant placeholder
`Hour = 12` at index 3, the booleans as 0/1 at indices 4 and 5, the
return-rate fraction at index 6, and the enumerated integer codes for
category and country at indices 7 and 8. -/
theorem c6_feature_vector_shape (encodeCategory encodeCountry : String → ℕ)
    (o : OrderInput) :
    (input_data encodeCategory encodeCountry o).length = 9 ∧
    (input_data encodeCategory encodeCountry o).getD 0 0 = o.unit_price ∧
    (input_data encodeCategory encodeCountry o).getD 1 0 = o.total_price ∧
    (input_data encodeCategory encodeCountry o).getD 2 0 = (o.month : ℚ) ∧
    (input_data encodeCategory encodeCountry o).getD 3 0 = 12 ∧
    (input_data encodeCategory encodeCountry o).getD 4 0
      = (if o.is_weekend then 1 else 0) ∧
    (input_data encodeCategory encodeCountry o).getD 5 0
      = (if o.is_holiday then 1 else 0) ∧
    (input_data encodeCategory encodeCountry o).getD 6 0
      = o.customer_return_rate / 100 ∧
    (input_data encodeCategory encodeCountry o).getD 7 0
      = (encodeCategory o.category : ℚ) ∧
    (input_data encodeCategory encodeCountry o).getD 8 0
      = (encodeCountry o.country : ℚ) := by
  simp [input_data]

/-- C7: the `customer_return_rate` form value `r` (a percentage) enters
the feature row as `r / 100`; in particular the default 1.7 becomes
0.017. -/
theorem c7_return_rate_fraction (encodeCategory encodeCountry : String → ℕ)
    (o : OrderInput) :
    (input_data encodeCategory encodeCountry o).getD 6 0
      = o.customer_return_rate / 100 ∧
    (o.customer_return_rate = 1.7 →
      (input_data encodeCategory encodeCountry o).getD 6 0 = 0.017) := by
  refine ⟨by simp [input_data], fun h => ?_⟩
  simp [input_data, h]
  norm_num

/-! ## Theorems about the feedback append -/

/-- C2: appending a record yields a table with one more row, whose first
`df_existing.length` rows are the prior rows unchanged and in order,
whose last row is the new record, and which for an empty store is the
one-row table holding just the record. -/
theorem c2_append_preserves_rows (df_existing : List FeedbackEntry)
    (entry : FeedbackEntry) :
    (df_updated df_existing entry).length = df_existing.length + 1 ∧
    (∀ i, i < df_existing.length →
      (df_updated df_existing entry).getD i entry = df_existing.getD i entry) ∧
    (df_updated df_existing entry).getLast? = some entry ∧
    df_updated [] entry = [entry] := by
  refine ⟨by simp [df_updated], fun i hi => ?_, ?_, by simp [df_updated]⟩
  · simp only [df_updated]
    exact List.getD_append _ _ _ _ hi
  · simp [df_updated]

/-- C2 witness: appending `entryB` to the one-row table `[entryA]` keeps
row 0 equal to `entryA` and puts `entryB` last. -/
theorem c2_append_preserves_rows_witness :
    (df_updated [entryA] entryB).getD 0 entryB = [entryA].getD 0 entryB ∧
    (df_updated [entryA] entryB).getLast? = some entryB :=
  ⟨(c2_append_preserves_rows [entryA] entryB).2.1 0 (by decide),
   (c2_append_preserves_rows [entryA] entryB).2.2.1⟩

/-- C3: when the fetch fails — resource absent, or a transient error on
an existing resource — the submission proceeds with the current table
treated as empty: exactly one write is attempted and its content is the
one-row table `[entry]`; in the resource-absent case (with a healthy
write transport) the submission succeeds and the store ends up holding
exactly `[entry]`. -/
theorem c3_fetch_failure_treated_as_empty (name : String)
    (entry : FeedbackEntry) (rows : List FeedbackEntry) (sha : ℕ)
    (writeError : Bool) (h : strip name ≠ "") :
    (feedback_form name entry none false false writeError).writeCalls.map
      WriteCall.content = [[entry]] ∧
    (feedback_form name entry (some (rows, sha)) true false
      writeError).writeCalls.map WriteCall.content = [[entry]] ∧
    (writeError = false →
      (feedback_form name entry none false false writeError).success = true ∧
      (feedback_form name entry none false false writeError).finalStore
        = some ([entry], 0)) := by
  cases writeError <;>
    simp [feedback_form, h, df_updated, create_file, WriteCall.content]

/-- C3 witness: with the resource absent and no injected write failure,
submitting `entryA` under a non-blank name writes `[entryA]` and
succeeds. -/
theorem c3_fetch_failure_treated_as_empty_witness :
    (feedback_form "Umar" entryA none false false false).writeCalls.map
      WriteCall.content = [[entryA]] ∧
    (feedback_form "Umar" entryA none false false false).success = true :=
  ⟨(c3_fetch_failure_treated_as_empty "Umar" entryA [] 0 false
      (by decide)).1,
   ((c3_fetch_failure_treated_as_empty "Umar" entryA [] 0 false
      (by decide)).2.2 rfl).1⟩

/-- C4: a submission whose name trims to the empty string is rejected
with the user-visible message, before any store interaction: no fetch,
no write, and the store state is untouched. -/
theorem c4_blank_name_rejected (name : String) (entry : FeedbackEntry)
    (st : Option (List FeedbackEntry × ℕ))
    (fetchError parseError writeError : Bool) (h : strip name = "") :
    feedback_form name entry st fetchError parseError writeError =
      { errorMsg := some "Please enter your name.", success := false,
        fetchCalls := 0, writeCalls := [], finalStore := st } := by
  simp [feedback_form, h]

/-- C4 witness: a whitespace-only name is rejected and the store keeps
its prior one-row content. -/
theorem c4_blank_name_rejected_witness :
    feedback_form "   " entryB (some ([entryA], 7)) false false false =
      { errorMsg := some "Please enter your name.", success := false,
        fetchCalls := 0, writeCalls := [], finalStore := some ([entryA], 7) } :=
  c4_blank_name_rejected "   " entryB (some ([entryA], 7)) false false false
    (by decide)

/-- C5: when the write call fails, the submission reports an error and
is not observably successful, and the write was attempted exactly once —
nothing is retried or queued. -/
theorem c5_write_failure_reported (name : String) (entry : FeedbackEntry)
    (st : Option (List FeedbackEntry × ℕ)) (fetchError parseError : Bool)
    (h : strip name ≠ "") :
    (feedback_form name entry st fetchError parseError true).success = false ∧
    ((feedback_form name entry st fetchError parseError true).errorMsg).isSome
      = true ∧
    (feedback_form name entry st fetchError parseError true).writeCalls.length
      = 1 := by
  rcases st with _ | ⟨rows, sha⟩ <;> cases fetchError <;> cases parseError <;>
    simp [feedback_form, h]

/-- C5 witness: a failing write of `entryA` over the prior store
`[entryB]` is reported as an error, with a single write attempt. -/
theorem c5_write_failure_reported_witness :
    (feedback_form "Umar" entryA (some ([entryB], 3)) false false
      true).success = false ∧
    (feedback_form "Umar" entryA (some ([entryB], 3)) false false
      true).writeCalls.length = 1 :=
  ⟨(c5_write_failure_reported "Umar" entryA (some ([entryB], 3)) false false
      (by decide)).1,
   (c5_write_failure_reported "Umar" entryA (some ([entryB], 3)) false false
      (by decide)).2.2⟩

/-- C9 counterexample: with both writers having read the empty prior
store at version 0, the final store holds only the FIRST writer's record
`[entryA]` — not the second writer's `[entryB]` as the claim states —
and the second write is rejected by the conflict-token check. -/
theorem c9_lost_update_counterexample :
    storeRows (concurrentAppend [] 0 entryA entryB).1 = [entryA] ∧
    storeRows (concurrentAppend [] 0 entryA entryB).1 ≠ [entryB] ∧
    (concurrentAppend [] 0 entryA entryB).2.2 = false := by
  refine ⟨by simp [concurrentAppend, update_file, df_updated, storeRows],
    ?_, by simp [concurrentAppend, update_file, df_updated]⟩
  · simp [concurrentAppend, update_file, df_updated, storeRows, entryA, entryB]

/-- C9 (amended): when two submissions both read the same prior state
and then write in order, the first write lands (appending its record)
and the second is rejected by the store's conflict-token check — the
stale `sha` no longer matches — so the final store holds the prior rows
plus only the FIRST writer's record, and the second writer observes a
failure. -/
theorem c9_second_write_rejected (rows : List FeedbackEntry) (sha : ℕ)
    (r1 r2 : FeedbackEntry) :
    concurrentAppend rows sha r1 r2
      = (some (rows ++ [r1], sha + 1), true, false) := by
  simp [concurrentAppend, update_file, df_updated]

/-- C10: when the fetch of the resource metadata succeeds but parsing of
the existing table fails, the submission updates the resource (with the
fetched conflict token) to the one-row table `[entry]`, reporting
success — all previously stored rows are silently discarded. -/
theorem c10_parse_failure_discards_rows (name : String)
    (entry : FeedbackEntry) (rows : List FeedbackEntry) (sha : ℕ)
    (h : strip name ≠ "") :
    feedback_form name entry (some (rows, sha)) false true false =
      { errorMsg := none, success := true, fetchCalls := 1,
        writeCalls := [.update [entry] sha],
        finalStore := some ([entry], sha + 1) } := by
  simp [feedback_form, h, df_updated, update_file]

/-- C10 witness: a parse failure over the prior store `[entryA]` ends
with the store holding only `[entryB]`. -/
theorem c10_parse_failure_discards_rows_witness :
    feedback_form "Ayesha" entryB (some ([entryA], 2)) false true false =
      { errorMsg := none, success := true, fetchCalls := 1,
        writeCalls := [.update [entryB] 2],
        finalStore := some ([entryB], 3) } :=
  c10_parse_failure_discards_rows "Ayesha" entryB [entryA] 2 (by decide)

/-! ## Round trip of the delimited-text codec -/

/-- C7 witness: the order input with return rate 1.7 indeed yields the
feature value 0.017 at index 6. -/
theorem c7_return_rate_fraction_witness :
    (input_data (fun _ => 0) (fun _ => 0)
      { category := "Gift", country := "United Kingdom", unit_price := 5,
        total_price := 50, customer_return_rate := 1.7, month := 1,
        is_holiday := false, is_weekend := false }).getD 6 0 = 0.017 :=
  (c7_return_rate_fraction (fun _ => 0) (fun _ => 0)
      { category := "Gift", country := "United Kingdom", unit_price := 5,
        total_price := 50, customer_return_rate := 1.7, month := 1,
        is_holiday := false, is_weekend := false }).2 rfl

end ReturnPredictor
